import Mathlib

/-!
Shallow embedding of the GPX-to-KML converter (`src/lib.rs` of
`gpx_kml_convert`).  Pure functions of the source are translated to Lean
functions; the mutable `Vec` pushes become list concatenation and the
`String` pushes become string concatenation, in the exact order of the
source.  Coordinate values are `f64` in the source; the converter performs
no arithmetic on them (pass-through at source precision), so they are
modelled as exact rationals.
-/

namespace GpxKml

/-- Embeds `f64` coordinate values; passed through without arithmetic. -/
abbrev CoordValue := Rat

/-- Modelled from the spec: the external `gpx::Time` value.  Its fallible,
stable human-readable rendering `t.format().ok()` (an external collaborator,
"its exact byte pattern is not re-derived here") is modelled as the optional
string the rendering produces. -/
structure GpxTime where
  format : Option String
deriving DecidableEq

/-- Embeds `gpx::Link`: only `href` is ever read by the converter. -/
structure Link where
  href : String
deriving DecidableEq

/-- Embeds `gpx::Person` (metadata author). -/
structure GpxAuthor where
  name : Option String
  email : Option String
  link : Option Link
deriving DecidableEq

/-- Embeds `gpx::Copyright`; `year` is an `i32` rendered by `Display`. -/
structure GpxCopyright where
  author : Option String
  year : Option Int
  license : Option String
deriving DecidableEq

/-- Embeds `gpx::Metadata`. -/
structure Metadata where
  name : Option String
  author : Option GpxAuthor
  links : List Link
  description : Option String
  time : Option GpxTime
  keywords : Option String
  copyright : Option GpxCopyright
deriving DecidableEq

/-- Embeds `Metadata::default()`, used by `gpx.metadata.unwrap_or_default()`. -/
def default_metadata : Metadata :=
  { name := none, author := none, links := [], description := none,
    time := none, keywords := none, copyright := none }

/-- Embeds `gpx::Waypoint`: the wrapped geo point maps longitude to `x` and
latitude to `y`; `point.x()` is the longitude, `point.y()` the latitude. -/
structure Waypoint where
  lon : CoordValue
  lat : CoordValue
  elevation : Option CoordValue
  name : Option String := none
  links : List Link := []
  description : Option String := none
  comment : Option String := none
  time : Option GpxTime := none
  source : Option String := none
  typ : Option String := none
deriving DecidableEq

/-- Embeds `gpx::Route`. -/
structure Route where
  points : List Waypoint
  name : Option String := none
  links : List Link := []
  description : Option String := none
  comment : Option String := none
  source : Option String := none
  typ : Option String := none
deriving DecidableEq

/-- Embeds `gpx::TrackSegment`. -/
structure TrackSegment where
  points : List Waypoint
deriving DecidableEq

/-- Embeds `gpx::Track`. -/
structure Track where
  segments : List TrackSegment
  name : Option String := none
  links : List Link := []
  description : Option String := none
  comment : Option String := none
  source : Option String := none
  typ : Option String := none
deriving DecidableEq

/-- Embeds `gpx::Gpx`: the parsed source document. -/
structure Gpx where
  metadata : Option Metadata
  creator : Option String
  waypoints : List Waypoint
  routes : List Route
  tracks : List Track
deriving DecidableEq

/-- Embeds `kml::types::AltitudeMode`; its `Default` is `ClampToGround`. -/
inductive AltitudeMode where
  | clampToGround
  | relativeToGround
  | absolute
deriving DecidableEq

/-- Embeds `kml::types::Coord` with optional `z`. -/
structure Coord where
  x : CoordValue
  y : CoordValue
  z : Option CoordValue
deriving DecidableEq

/-- Embeds `kml::types::Point`: the fields the converter sets (the rest stay at
their defaults and are never read back). -/
structure Point where
  coord : Coord
  altitudeMode : AltitudeMode
deriving DecidableEq

/-- Embeds `kml::types::LineString`: the fields the converter sets. -/
structure LineString where
  tessellate : Bool
  altitudeMode : AltitudeMode
  coords : List Coord
deriving DecidableEq

/-- Embeds `kml::types::Geometry`, the closed union of the variants the converter
produces. -/
inductive Geometry where
  | point (p : Point)
  | lineString (ls : LineString)
  | multiGeometry (geometries : List Geometry)

/-- Embeds `kml::types::Element`. -/
inductive KmlElement where
  | mk (name : String) (attrs : List (String × String))
      (content : Option String) (children : List KmlElement)

/-- Element name. -/
def KmlElement.name : KmlElement → String
  | .mk n _ _ _ => n

/-- Element attributes. -/
def KmlElement.attrs : KmlElement → List (String × String)
  | .mk _ a _ _ => a

/-- Element text content. -/
def KmlElement.content : KmlElement → Option String
  | .mk _ _ c _ => c

/-- Element children. -/
def KmlElement.children : KmlElement → List KmlElement
  | .mk _ _ _ ch => ch

/-- Embeds `kml::types::Placemark`: the fields the converter sets. -/
structure Placemark where
  name : Option String
  description : Option String
  geometry : Option Geometry
  children : List KmlElement
deriving Inhabited

/-- Embeds `kml::KmlVersion`. -/
inductive KmlVersion where
  | v22
deriving DecidableEq

/-- Embeds `kml::Kml`, restricted to the variants the converter constructs.
`document` keeps the fields of the source variant `Kml::Document`;
`kmlDocument` keeps `KmlDocument { version, attrs, elements }`. -/
inductive Kml where
  | element (e : KmlElement)
  | placemark (p : Placemark)
  | document (elements : List Kml) (attrs : List (String × String))
  | kmlDocument (version : KmlVersion) (attrs : List (String × String))
      (elements : List Kml)

/-- Embeds `XML_HEAD`: line prepended to the KML output. -/
def XML_HEAD : String := "<?xml version=\"1.0\" encoding=\"UTF-8\"?>"

/-- Embeds `NAMESPACES`: namespace attributes for the `kml` tag. -/
def NAMESPACES : List (String × String) :=
  [("xmlns", "http://www.opengis.net/kml/2.2"),
   ("xmlns:atom", "http://www.w3.org/2005/Atom")]

/-- Embeds `DEFAULT_OPEN`: default value for the `open` element of the document. -/
def DEFAULT_OPEN : String := "1"

/-- Embeds `DEFAULT_TESSELLATE`. -/
def DEFAULT_TESSELLATE : Bool := true

/-- Embeds `simple_element`: element with a `name` and `content` only. -/
def simple_element (name : String) (content : String) : KmlElement :=
  .mk name [] (some content) []

/-- Embeds `simple_kelem`. -/
def simple_kelem (name : String) (content : String) : Kml :=
  .element (simple_element name content)

/-- Embeds `atom_link`: `atom:link` element carrying only the `href` attribute. -/
def atom_link (href : String) : KmlElement :=
  .mk "atom:link" [("href", href)] none []

/-- The author name string built by mutation inside `push_metadata`
(lines 139-146): start from `author.name.unwrap_or_default()`, push a
space if both name and email are non-empty, append `<email>` if the email
is non-empty. -/
def author_name_rendered (author : GpxAuthor) : String :=
  let name0 := author.name.getD ""
  let mail := author.email.getD ""
  let name1 := if name0 ≠ "" ∧ mail ≠ "" then name0 ++ " " else name0
  if mail ≠ "" then name1 ++ "<" ++ mail ++ ">" else name1

/-- The children pushed for the author: an `atom:name` child when the
rendered name string is non-empty, then an `atom:link` child when the
author has a link. -/
def author_children (author : GpxAuthor) : List KmlElement :=
  (if author_name_rendered author ≠ ""
   then [simple_element "atom:name" (author_name_rendered author)] else [])
    ++ (match author.link with
        | some link => [atom_link link.href]
        | none => [])

/-- The `atom:author` element pushed by `push_metadata` (lines 137-161):
children are collected only when an author record exists, and the element
is pushed only when the children list is non-empty. -/
def author_kml (author : Option GpxAuthor) : List Kml :=
  let children := match author with
    | some a => author_children a
    | none => []
  if children.isEmpty then []
  else [Kml.element (.mk "atom:author" [] none children)]

/-- The metadata description string built by `push_metadata`
(lines 167-203): start from the raw description with a newline appended
(or empty), then append the `Created` clause when the formatted time or
the creator is present, then the `Keywords` clause, then the `Copyright`
clause when the copyright record has at least one present field. -/
def metadata_description (metadata : Metadata) (creator : Option String) :
    String :=
  let d0 := match metadata.description with
    | some d => d ++ "\n"
    | none => ""
  let time := metadata.time.bind GpxTime.format
  let d1 := if time.isSome || creator.isSome then
      d0 ++ "Created"
        ++ (match time with
            | some t => " " ++ t
            | none => "")
        ++ (match creator with
            | some c => " by " ++ c
            | none => "")
        ++ "\n"
    else d0
  let d2 := match metadata.keywords with
    | some k => d1 ++ "Keywords: " ++ k ++ "\n"
    | none => d1
  let d3 := match Option.filter
      (fun c => c.author.isSome || c.year.isSome || c.license.isSome)
      metadata.copyright with
    | some c => d2 ++ "Copyright"
        ++ (match c.author with
            | some a => " " ++ a
            | none => "")
        ++ (match c.year with
            | some y => " " ++ toString y
            | none => "")
        ++ (match c.license with
            | some l => " under " ++ l
            | none => "")
        ++ "\n"
    | none => d2
  d3

/-- Embeds `push_metadata`: the list of KML elements pushed for the GPX metadata
and creator, in push order — optional `name` element, optional
`atom:author` element, one `atom:link` per metadata link, and the
description element when the composed description is non-empty. -/
def push_metadata (metadata : Metadata) (creator : Option String) :
    List Kml :=
  (match metadata.name with
   | some n => [simple_kelem "name" n]
   | none => [])
  ++ author_kml metadata.author
  ++ metadata.links.map (fun link => Kml.element (atom_link link.href))
  ++ (let description := metadata_description metadata creator
      if description ≠ "" then [simple_kelem "description" description]
      else [])

/-- Embeds `PlacemarkArgs`. -/
structure PlacemarkArgs where
  name : Option String
  links : List Link
  description : Option String
  comment : Option String
  time : Option String
  source : Option String
  typ : Option String
  geometry : Geometry

/-- The description string built by `create_placemark` (lines 349-367):
raw description with a newline appended (or empty), then the comment,
`Created <time>`, `Source: <source>` and `Type: <type>` lines, each
appended only when the field is present. -/
def feature_description (args : PlacemarkArgs) : String :=
  let d0 := match args.description with
    | some d => d ++ "\n"
    | none => ""
  let d1 := match args.comment with
    | some c => d0 ++ c ++ "\n"
    | none => d0
  let d2 := match args.time with
    | some t => d1 ++ "Created " ++ t ++ "\n"
    | none => d1
  let d3 := match args.source with
    | some s => d2 ++ "Source: " ++ s ++ "\n"
    | none => d2
  let d4 := match args.typ with
    | some t => d3 ++ "Type: " ++ t ++ "\n"
    | none => d3
  d4

/-- Embeds `create_placemark`: one `atom:link` child per source link, and the
description kept only when non-empty (`Some(description).filter(|d|
!d.is_empty())`). -/
def create_placemark (args : PlacemarkArgs) : Kml :=
  let children := args.links.map (fun link => atom_link link.href)
  let description := feature_description args
  .placemark
    { name := args.name
      description := if description = "" then none else some description
      geometry := some args.geometry
      children := children }

/-- Embeds `convert_waypoint`: a single waypoint becomes a `Point` at
`(point.x(), point.y(), elevation)` with absolute altitude mode exactly
when the waypoint has an elevation. -/
def convert_waypoint (waypoint : Waypoint) : Kml :=
  let geometry := Geometry.point
    { coord := { x := waypoint.lon, y := waypoint.lat,
                 z := waypoint.elevation }
      altitudeMode := if waypoint.elevation.isSome then .absolute
        else .clampToGround }
  create_placemark
    { name := waypoint.name
      links := waypoint.links
      description := waypoint.description
      comment := waypoint.comment
      time := waypoint.time.bind GpxTime.format
      source := waypoint.source
      typ := waypoint.typ
      geometry := geometry }

/-- The accumulation loop shared verbatim by `convert_route` (lines
245-255) and `convert_segment` (lines 305-315): pushes one coord per
waypoint and ors together the elevation availability. -/
def line_scan (points : List Waypoint) : Bool × List Coord :=
  points.foldl
    (fun st w =>
      (st.1 || w.elevation.isSome,
       st.2 ++ [{ x := w.lon, y := w.lat, z := w.elevation }]))
    (false, [])

/-- Embeds `convert_route`: a route becomes a tessellated `LineString`, absolute
altitude mode when any point of the route has an elevation. -/
def convert_route (route : Route) : Kml :=
  let scan := line_scan route.points
  let geometry := Geometry.lineString
    { tessellate := DEFAULT_TESSELLATE
      altitudeMode := if scan.1 then .absolute else .clampToGround
      coords := scan.2 }
  create_placemark
    { name := route.name
      links := route.links
      description := route.description
      comment := route.comment
      time := none
      source := route.source
      typ := route.typ
      geometry := geometry }

/-- Embeds `convert_segment`: one track segment becomes a tessellated
`LineString`, absolute altitude mode when any point has an elevation. -/
def convert_segment (segment : TrackSegment) : Geometry :=
  let scan := line_scan segment.points
  .lineString
    { tessellate := DEFAULT_TESSELLATE
      altitudeMode := if scan.1 then .absolute else .clampToGround
      coords := scan.2 }

/-- Embeds `convert_track`: a track becomes a `MultiGeometry` of the per-segment
`LineString`s. -/
def convert_track (track : Track) : Kml :=
  let geometries := track.segments.map convert_segment
  create_placemark
    { name := track.name
      links := track.links
      description := track.description
      comment := track.comment
      time := none
      source := track.source
      typ := track.typ
      geometry := .multiGeometry geometries }

/-- The `elements` vector assembled by `convert` (lines 92-105): the
`open` marker element, the metadata elements, then one placemark per
waypoint, per route, and per track, in source order. -/
def document_elements (gpx : Gpx) : List Kml :=
  [simple_kelem "open" DEFAULT_OPEN]
  ++ push_metadata (gpx.metadata.getD default_metadata) gpx.creator
  ++ gpx.waypoints.map convert_waypoint
  ++ gpx.routes.map convert_route
  ++ gpx.tracks.map convert_track

/-- The KML tree assembled by `convert` (lines 107-119): a `KmlDocument`
carrying the namespace attributes, holding the single `Document` whose
`attrs` are defaulted (empty). -/
def convert_doc (gpx : Gpx) : Kml :=
  .kmlDocument .v22 NAMESPACES [.document (document_elements gpx) []]

/-- Attributes of a KML node (for the root this is the attribute map of
the `kml` tag, which `convert` fills with `NAMESPACES`). -/
def kml_attrs : Kml → List (String × String)
  | .element e => e.attrs
  | .placemark _ => []
  | .document _ attrs => attrs
  | .kmlDocument _ attrs _ => attrs

/-- Outcome of one run of `convert`: success with the full output written,
a returned `Error::Gpx` (nothing written), a returned `Error::Kml` (a
partial prefix may have been written), or a panic from an `unwrap()` on a
failed sink write. -/
inductive ConvertOutcome where
  | ok (output : String)
  | gpxError
  | kmlError (partialOut : String)
  | panicked (partialOut : String)
deriving DecidableEq

/-- Whether the outcome is a returned KML write error. -/
def ConvertOutcome.isKmlError : ConvertOutcome → Bool
  | .kmlError _ => true
  | _ => false

/-- The bytes `convert` writes on the success path (lines 121-124):
the `XML_HEAD` line, the serialized document, a trailing newline.  The
external serializer (`KmlWriter`) is abstracted as a function argument. -/
def convert_output (serialize : Kml → String) (gpx : Gpx) : String :=
  XML_HEAD ++ "\n" ++ serialize (convert_doc gpx) ++ "\n"

/-- Embeds `convert` (lines 89-127) as a run over a fallible source and sink.
`parsed` models the result of `gpx::read(source)?` (`none` for malformed
input).  `failAt` models a sink that fails on its n-th write call: write 0
is `writeln!(sink, "{XML_HEAD}").unwrap()` — a failure there panics, it is
not returned; write 1 is `writer.write(&kml)?` — a failure there is
returned as `Error::Kml`; write 2 is the final `writeln!(sink).unwrap()` —
a failure there also panics. -/
def convert_run (serialize : Kml → String) (parsed : Option Gpx)
    (failAt : Option Nat) : ConvertOutcome :=
  match parsed with
  | none => .gpxError
  | some gpx =>
    if failAt = some 0 then .panicked ""
    else
      let out0 := XML_HEAD ++ "\n"
      if failAt = some 1 then .kmlError out0
      else
        let out1 := out0 ++ serialize (convert_doc gpx)
        if failAt = some 2 then .panicked out1
        else .ok (out1 ++ "\n")

/-! ### Clause-level view of the description composer

The following definitions restate the DescriptionComposer clauses in the
exact terms of the spec (one string per clause, empty when the clause does not
fire), to be compared with the incremental string building of
`push_metadata` and `create_placemark` above. -/

/-- Spec clause: the raw description text, newline-terminated. -/
def desc_clause : Option String → String
  | some d => d ++ "\n"
  | none => ""

/-- Spec clause (metadata variant): `Created <time>? by <creator>?`. -/
def created_clause (time creator : Option String) : String :=
  if time.isSome || creator.isSome then
    "Created"
      ++ (match time with
          | some t => " " ++ t
          | none => "")
      ++ (match creator with
          | some c => " by " ++ c
          | none => "")
      ++ "\n"
  else ""

/-- Spec clause (metadata variant): `Keywords: <keywords>`. -/
def keywords_clause : Option String → String
  | some k => "Keywords: " ++ k ++ "\n"
  | none => ""

/-- Spec clause (metadata variant): `Copyright <author>? <year>?
under <license>?`, fired only when the record has a present field. -/
def copyright_clause (copyright : Option GpxCopyright) : String :=
  match Option.filter
      (fun c => c.author.isSome || c.year.isSome || c.license.isSome)
      copyright with
  | some c => "Copyright"
      ++ (match c.author with
          | some a => " " ++ a
          | none => "")
      ++ (match c.year with
          | some y => " " ++ toString y
          | none => "")
      ++ (match c.license with
          | some l => " under " ++ l
          | none => "")
      ++ "\n"
  | none => ""

/-- Spec clause (feature variant): the comment text, newline-terminated. -/
def comment_clause : Option String → String
  | some c => c ++ "\n"
  | none => ""

/-- Spec clause (feature variant): `Created <time>`. -/
def created_feature_clause : Option String → String
  | some t => "Created " ++ t ++ "\n"
  | none => ""

/-- Spec clause (feature variant): `Source: <source>`. -/
def source_clause : Option String → String
  | some s => "Source: " ++ s ++ "\n"
  | none => ""

/-- Spec clause (feature variant): `Type: <type>`. -/
def type_clause : Option String → String
  | some t => "Type: " ++ t ++ "\n"
  | none => ""

/-- Whether at least one metadata description clause fires. -/
def metadata_fired (md : Metadata) (creator : Option String) : Bool :=
  md.description.isSome || (md.time.bind GpxTime.format).isSome
    || creator.isSome || md.keywords.isSome
    || (Option.filter
        (fun c => c.author.isSome || c.year.isSome || c.license.isSome)
        md.copyright).isSome

/-- Whether at least one feature description clause fires. -/
def feature_fired (args : PlacemarkArgs) : Bool :=
  args.description.isSome || args.comment.isSome || args.time.isSome
    || args.source.isSome || args.typ.isSome

/-- Whether a KML node is an element named `description`. -/
def is_description (k : Kml) : Bool :=
  match k with
  | .element (.mk n _ _ _) => n = "description"
  | _ => false

/-- The `description` elements among a list of KML nodes. -/
def description_elements (l : List Kml) : List Kml :=
  l.filter is_description

/-- Whether a KML node is a feature (`Placemark`). -/
def is_feature : Kml → Bool
  | .placemark _ => true
  | _ => false

/-- A GPX document with nothing in it. -/
def empty_gpx : Gpx :=
  { metadata := none, creator := none, waypoints := [], routes := [],
    tracks := [] }

/-- A serializer stand-in used to evaluate run outcomes on concrete
inputs (the run outcome constructors do not depend on the serialized
bytes). -/
def serialize0 : Kml → String := fun _ => ""

/-- The coordinate triple a waypoint contributes: (longitude, latitude,
elevation-or-absent). -/
def wp_coord (w : Waypoint) : Coord :=
  { x := w.lon, y := w.lat, z := w.elevation }

/-- Restates the claimed author-name rendering in the terms of the spec: the
name, then a space and `<email>` when both are non-empty; just `<email>`
when only the email is present; just the name when only the name is
present (empty when neither). -/
def author_name_text_spec (a : GpxAuthor) : String :=
  let name0 := a.name.getD ""
  let mail := a.email.getD ""
  if name0 ≠ "" ∧ mail ≠ "" then name0 ++ " " ++ "<" ++ mail ++ ">"
  else if mail ≠ "" then "<" ++ mail ++ ">"
  else name0

/-- Restates the claimed author-element shape in the terms of the spec: a name
child when the rendered name text is non-empty, a link child when the
author has a link, and no author element at all when there is no child. -/
def author_element_spec (a : GpxAuthor) : List Kml :=
  let children :=
    (if author_name_text_spec a ≠ ""
     then [simple_element "atom:name" (author_name_text_spec a)] else [])
    ++ (match a.link with
        | some l => [atom_link l.href]
        | none => [])
  if children.isEmpty then []
  else [Kml.element (.mk "atom:author" [] none children)]

/-- The metadata block of the C9 scenario: description `Hike`, keywords
`alps,summer`, a copyright record with only the year 2020, no timestamp. -/
def hike_metadata : Metadata :=
  { name := none, author := none, links := [],
    description := some "Hike", time := none,
    keywords := some "alps,summer",
    copyright := some { author := none, year := some 2020, license := none } }

/-! ### Helper lemmas -/

/-- A string with a newline appended is never empty. -/
lemma append_newline_ne_empty (s : String) : s ++ "\n" ≠ "" := by
  intro h
  have h2 := congrArg String.length h
  simp [String.length_append] at h2
  exact absurd h2.2 (by decide)

/-- String concatenation is empty exactly when both halves are. -/
lemma string_append_eq_empty (a b : String) :
    a ++ b = "" ↔ a = "" ∧ b = "" := by
  constructor
  · intro h
    have h2 := congrArg String.data h
    simp [String.data_append] at h2
    exact ⟨String.ext h2.1, String.ext h2.2⟩
  · rintro ⟨rfl, rfl⟩; rfl

/-- Regroup a newline with a following `Keywords: ` literal. -/
lemma nl_append_keywords (s : String) :
    "\n" ++ ("Keywords: " ++ s) = "\nKeywords: " ++ s := by
  rw [← String.append_assoc]; rfl

/-- Regroup a newline with a following `Created` literal. -/
lemma nl_append_created (s : String) :
    "\n" ++ ("Created" ++ s) = "\nCreated" ++ s := by
  rw [← String.append_assoc]; rfl

/-- Regroup a newline with a following `Created ` literal. -/
lemma nl_append_created_sp (s : String) :
    "\n" ++ ("Created " ++ s) = "\nCreated " ++ s := by
  rw [← String.append_assoc]; rfl

/-- Regroup a newline with a following `Copyright` literal. -/
lemma nl_append_copyright (s : String) :
    "\n" ++ ("Copyright" ++ s) = "\nCopyright" ++ s := by
  rw [← String.append_assoc]; rfl

/-- Regroup a newline with a following `Source: ` literal. -/
lemma nl_append_source (s : String) :
    "\n" ++ ("Source: " ++ s) = "\nSource: " ++ s := by
  rw [← String.append_assoc]; rfl

/-- Regroup a newline with a following `Type: ` literal. -/
lemma nl_append_type (s : String) :
    "\n" ++ ("Type: " ++ s) = "\nType: " ++ s := by
  rw [← String.append_assoc]; rfl

/-- Embeds `metadata_description` is the concatenation of the four metadata
clauses in spec order. -/
lemma metadata_description_clauses (md : Metadata) (creator : Option String) :
    metadata_description md creator
      = desc_clause md.description
        ++ created_clause (md.time.bind GpxTime.format) creator
        ++ keywords_clause md.keywords
        ++ copyright_clause md.copyright := by
  unfold metadata_description desc_clause created_clause keywords_clause
    copyright_clause
  cases hd : md.description <;>
    cases ht : md.time.bind GpxTime.format <;>
      cases creator <;>
        cases hk : md.keywords <;>
          cases hc : Option.filter
              (fun c => c.author.isSome || c.year.isSome || c.license.isSome)
              md.copyright <;>
            simp [hd, ht, hk, hc, String.append_assoc, nl_append_keywords,
              nl_append_created, nl_append_copyright]

/-- Embeds `feature_description` is the concatenation of the five feature
clauses in spec order. -/
lemma feature_description_clauses (args : PlacemarkArgs) :
    feature_description args
      = desc_clause args.description ++ comment_clause args.comment
        ++ created_feature_clause args.time ++ source_clause args.source
        ++ type_clause args.typ := by
  unfold feature_description desc_clause comment_clause
    created_feature_clause source_clause type_clause
  cases args.description <;> cases args.comment <;> cases args.time <;>
    cases args.source <;> cases args.typ <;>
      simp [String.append_assoc, nl_append_created_sp, nl_append_source,
        nl_append_type]

/-- The raw-description clause is empty exactly when absent. -/
lemma desc_clause_empty (o : Option String) :
    desc_clause o = "" ↔ o = none := by
  cases o <;> simp [desc_clause, append_newline_ne_empty]

/-- The comment clause is empty exactly when absent. -/
lemma comment_clause_empty (o : Option String) :
    comment_clause o = "" ↔ o = none := by
  cases o <;> simp [comment_clause, append_newline_ne_empty]

/-- The metadata `Created` clause is empty exactly when both the
formatted time and the creator are absent. -/
lemma created_clause_empty (t c : Option String) :
    created_clause t c = "" ↔ t = none ∧ c = none := by
  cases t <;> cases c <;> simp [created_clause, append_newline_ne_empty]

/-- The keywords clause is empty exactly when absent. -/
lemma keywords_clause_empty (o : Option String) :
    keywords_clause o = "" ↔ o = none := by
  cases o <;> simp [keywords_clause, append_newline_ne_empty]

/-- The copyright clause is empty exactly when the filtered record is
absent. -/
lemma copyright_clause_empty (o : Option GpxCopyright) :
    copyright_clause o = ""
      ↔ Option.filter
          (fun c => c.author.isSome || c.year.isSome || c.license.isSome)
          o = none := by
  unfold copyright_clause
  cases hc : Option.filter
      (fun c => c.author.isSome || c.year.isSome || c.license.isSome) o <;>
    simp [append_newline_ne_empty]

/-- The feature `Created` clause is empty exactly when absent. -/
lemma created_feature_clause_empty (o : Option String) :
    created_feature_clause o = "" ↔ o = none := by
  cases o <;> simp [created_feature_clause, append_newline_ne_empty]

/-- The source clause is empty exactly when absent. -/
lemma source_clause_empty (o : Option String) :
    source_clause o = "" ↔ o = none := by
  cases o <;> simp [source_clause, append_newline_ne_empty]

/-- The type clause is empty exactly when absent. -/
lemma type_clause_empty (o : Option String) :
    type_clause o = "" ↔ o = none := by
  cases o <;> simp [type_clause, append_newline_ne_empty]

/-- The composed metadata description is empty exactly when no clause
fires. -/
lemma metadata_description_empty (md : Metadata) (creator : Option String) :
    metadata_description md creator = "" ↔ metadata_fired md creator = false := by
  rw [metadata_description_clauses]
  unfold metadata_fired
  simp [string_append_eq_empty, desc_clause_empty, created_clause_empty,
    keywords_clause_empty, copyright_clause_empty]
  all_goals
    cases md.description <;> cases md.time.bind GpxTime.format <;>
      cases creator <;> cases md.keywords <;>
        cases Option.filter
            (fun c => c.author.isSome || c.year.isSome || c.license.isSome)
            md.copyright <;>
          simp

/-- The composed feature description is empty exactly when no clause
fires. -/
lemma feature_description_empty (args : PlacemarkArgs) :
    feature_description args = "" ↔ feature_fired args = false := by
  rw [feature_description_clauses]
  unfold feature_fired
  simp [string_append_eq_empty, desc_clause_empty, comment_clause_empty,
    created_feature_clause_empty, source_clause_empty, type_clause_empty]

/-- The fold of `line_scan` evaluated from an arbitrary accumulator. -/
lemma line_scan_go (ws : List Waypoint) (b : Bool) (acc : List Coord) :
    ws.foldl
      (fun st w =>
        (st.1 || w.elevation.isSome,
         st.2 ++ [{ x := w.lon, y := w.lat, z := w.elevation }]))
      (b, acc)
      = (b || ws.any fun w => w.elevation.isSome,
         acc ++ ws.map wp_coord) := by
  induction ws generalizing b acc with
  | nil => simp
  | cons w ws ih => simp [ih, Bool.or_assoc, wp_coord]

/-- Embeds `line_scan` returns the any-elevation flag and the per-waypoint
coordinate triples in order. -/
lemma line_scan_eq (ws : List Waypoint) :
    line_scan ws
      = (ws.any fun w => w.elevation.isSome, ws.map wp_coord) := by
  simpa using line_scan_go ws false []

/-- Appending a non-empty string keeps the result non-empty. -/
lemma append_ne_empty_of_right (a b : String) (hb : b ≠ "") :
    a ++ b ≠ "" := by
  intro h
  exact hb ((string_append_eq_empty a b).mp h).2

/-- Regroup `Created` with a following space. -/
lemma created_append_space (s : String) :
    "Created" ++ (" " ++ s) = "Created " ++ s := by
  rw [← String.append_assoc]; rfl

/-- Regroup `Created` with a following ` by `. -/
lemma created_append_by (s : String) :
    "Created" ++ (" by " ++ s) = "Created by " ++ s := by
  rw [← String.append_assoc]; rfl

/-- Embeds `create_placemark` always yields a `Placemark`. -/
lemma is_feature_create_placemark (args : PlacemarkArgs) :
    is_feature (create_placemark args) = true := rfl

/-- The author block never yields a feature. -/
lemma filter_feature_author_kml (author : Option GpxAuthor) :
    (author_kml author).filter is_feature = [] := by
  unfold author_kml
  rcases author with _ | a
  · simp
  · cases (author_children a).isEmpty <;> simp [is_feature]

/-- The metadata link elements never yield a feature. -/
lemma filter_feature_links (links : List Link) :
    (links.map fun link => Kml.element (atom_link link.href)).filter
      is_feature = [] := by
  induction links with
  | nil => rfl
  | cons l ls ih => simp [is_feature, ih]

/-- The metadata block never yields a feature. -/
lemma filter_feature_push_metadata (md : Metadata) (c : Option String) :
    (push_metadata md c).filter is_feature = [] := by
  unfold push_metadata
  simp only [List.filter_append, filter_feature_author_kml,
    filter_feature_links, List.append_nil, List.nil_append]
  rcases md.name with _ | n <;> split <;>
    simp [is_feature, simple_kelem, simple_element]

/-- The author block never yields a `description` element. -/
lemma description_elements_author (author : Option GpxAuthor) :
    description_elements (author_kml author) = [] := by
  unfold description_elements author_kml
  rcases author with _ | a
  · simp
  · cases (author_children a).isEmpty <;> simp [is_description]

/-- The metadata link elements never yield a `description` element. -/
lemma description_elements_links (links : List Link) :
    description_elements
      (links.map fun link => Kml.element (atom_link link.href)) = [] := by
  unfold description_elements
  induction links with
  | nil => rfl
  | cons l ls ih => simp [atom_link, ih, is_description]

/-- The empty string is a left identity for append. -/
lemma empty_append_str (s : String) : "" ++ s = s := by
  apply String.ext
  simp [String.data_append]

/-- The rendered author name string matches the claimed case form. -/
lemma author_name_rendered_eq_spec (a : GpxAuthor) :
    author_name_rendered a = author_name_text_spec a := by
  unfold author_name_rendered author_name_text_spec
  by_cases hn : a.name.getD "" = "" <;>
    by_cases hm : a.email.getD "" = "" <;>
      simp [hn, hm, empty_append_str]

/-- The rendered author name string is empty exactly when both the name
and the email are absent or empty. -/
lemma author_name_rendered_empty (a : GpxAuthor) :
    author_name_rendered a = ""
      ↔ a.name.getD "" = "" ∧ a.email.getD "" = "" := by
  have hgt : ∀ s : String, s ++ ">" ≠ "" :=
    fun s => append_ne_empty_of_right s ">" (by decide)
  unfold author_name_rendered
  by_cases hn : a.name.getD "" = "" <;>
    by_cases hm : a.email.getD "" = "" <;>
      simp [hn, hm, hgt, empty_append_str]

/-! ### Claim theorems -/

/-- Claim C1: a sequence of waypoints converted as a route or as one
track segment yields a LineString with tessellation enabled, altitude
mode absolute iff at least one waypoint of the sequence has an elevation,
and the per-waypoint (longitude, latitude, elevation-or-absent) triples
as coordinates in source order; in particular a 3-point line with
elevations [absent, 5.0, absent] yields an absolute LineString with those
exact z-components. -/
theorem route_and_segment_linestring (route : Route) (segment : TrackSegment)
    (x0 y0 x1 y1 x2 y2 : CoordValue) :
    (∃ p ls, convert_route route = .placemark p
      ∧ p.geometry = some (.lineString ls)
      ∧ ls.tessellate = true
      ∧ ls.coords = route.points.map wp_coord
      ∧ (ls.altitudeMode = .absolute
          ↔ ∃ w ∈ route.points, w.elevation.isSome = true)
      ∧ (ls.altitudeMode = .absolute ∨ ls.altitudeMode = .clampToGround))
    ∧ (∃ ls, convert_segment segment = .lineString ls
      ∧ ls.tessellate = true
      ∧ ls.coords = segment.points.map wp_coord
      ∧ (ls.altitudeMode = .absolute
          ↔ ∃ w ∈ segment.points, w.elevation.isSome = true)
      ∧ (ls.altitudeMode = .absolute ∨ ls.altitudeMode = .clampToGround))
    ∧ convert_segment
        { points := [{ lon := x0, lat := y0, elevation := none },
                     { lon := x1, lat := y1, elevation := some 5 },
                     { lon := x2, lat := y2, elevation := none }] }
        = .lineString
            { tessellate := true
              altitudeMode := .absolute
              coords := [{ x := x0, y := y0, z := none },
                         { x := x1, y := y1, z := some 5 },
                         { x := x2, y := y2, z := none }] } := by
  refine ⟨⟨_, _, rfl, rfl, rfl, ?_, ?_, ?_⟩, ⟨_, rfl, rfl, ?_, ?_, ?_⟩, ?_⟩
  · simp [line_scan_eq]
  · cases hany : route.points.any (fun w => w.elevation.isSome) <;>
      simp [line_scan_eq, hany, ← List.any_eq_true]
  · cases hany : route.points.any (fun w => w.elevation.isSome) <;>
      simp [line_scan_eq, hany]
  · simp [line_scan_eq]
  · cases hany : segment.points.any (fun w => w.elevation.isSome) <;>
      simp [line_scan_eq, hany, ← List.any_eq_true]
  · cases hany : segment.points.any (fun w => w.elevation.isSome) <;>
      simp [line_scan_eq, hany]
  · simp [convert_segment, line_scan_eq, DEFAULT_TESSELLATE, wp_coord]

/-- Claim C6: a single waypoint converts to a Point whose coordinate is
(longitude, latitude, elevation-or-absent), never swapped, with the
z-component exactly the source elevation when present, and absolute
altitude mode iff the waypoint has an elevation (default mode,
ClampToGround, otherwise). -/
theorem waypoint_point (w : Waypoint) :
    ∃ p pt, convert_waypoint w = .placemark p
      ∧ p.geometry = some (.point pt)
      ∧ pt.coord = { x := w.lon, y := w.lat, z := w.elevation }
      ∧ pt.altitudeMode
          = (if w.elevation.isSome then .absolute else .clampToGround)
      ∧ (pt.altitudeMode = .absolute ↔ w.elevation.isSome = true) := by
  refine ⟨_, _, rfl, rfl, rfl, rfl, ?_⟩
  cases w.elevation <;> simp

/-- Claim C8: a track converts to a MultiGeometry with one LineString per
segment in segment order (count preserved), and an empty segment yields a
degenerate zero-coordinate LineString rather than being dropped. -/
theorem track_multigeometry (t : Track) :
    (∃ p, convert_track t = .placemark p
      ∧ p.geometry = some (.multiGeometry (t.segments.map convert_segment)))
    ∧ (t.segments.map convert_segment).length = t.segments.length
    ∧ (∀ seg, convert_segment seg = .lineString
        { tessellate := true
          altitudeMode :=
            if seg.points.any (fun w => w.elevation.isSome)
            then .absolute else .clampToGround
          coords := seg.points.map wp_coord })
    ∧ convert_segment { points := [] }
        = .lineString
            { tessellate := true, altitudeMode := .clampToGround,
              coords := [] } := by
  refine ⟨⟨_, rfl, rfl⟩, List.length_map _ _, ?_, rfl⟩
  intro seg
  simp [convert_segment, line_scan_eq, DEFAULT_TESSELLATE]

/-- Claim C5: the output document contains exactly one feature node per
waypoint, per route, and per track — all waypoint features first, then
all route features, then all track features, each group in source order —
so the feature count is waypoints + routes + tracks. -/
theorem feature_order_and_count (gpx : Gpx) :
    (document_elements gpx).filter is_feature
      = gpx.waypoints.map convert_waypoint
        ++ gpx.routes.map convert_route
        ++ gpx.tracks.map convert_track
    ∧ ((document_elements gpx).filter is_feature).length
      = gpx.waypoints.length + gpx.routes.length + gpx.tracks.length := by
  have h : (document_elements gpx).filter is_feature
      = gpx.waypoints.map convert_waypoint
        ++ gpx.routes.map convert_route
        ++ gpx.tracks.map convert_track := by
    unfold document_elements
    simp only [List.filter_append, filter_feature_push_metadata]
    have hw : (gpx.waypoints.map convert_waypoint).filter is_feature
        = gpx.waypoints.map convert_waypoint := by
      rw [List.filter_eq_self]
      intro k hk
      rcases List.mem_map.mp hk with ⟨w, _, rfl⟩
      exact is_feature_create_placemark _
    have hr : (gpx.routes.map convert_route).filter is_feature
        = gpx.routes.map convert_route := by
      rw [List.filter_eq_self]
      intro k hk
      rcases List.mem_map.mp hk with ⟨r, _, rfl⟩
      exact is_feature_create_placemark _
    have ht : (gpx.tracks.map convert_track).filter is_feature
        = gpx.tracks.map convert_track := by
      rw [List.filter_eq_self]
      intro k hk
      rcases List.mem_map.mp hk with ⟨t, _, rfl⟩
      exact is_feature_create_placemark _
    simp [hw, hr, ht, is_feature, simple_kelem, simple_element]
  refine ⟨h, ?_⟩
  simp [h]
  omega

/-- Claim C9: for a metadata block with description `Hike`, keywords
`alps,summer`, a copyright record containing only the year 2020, and no
timestamp or creator, the composed metadata description is exactly
`Hike\nKeywords: alps,summer\nCopyright 2020\n`, and the metadata block
emits exactly that description element. -/
theorem hike_description :
    metadata_description hike_metadata none
      = "Hike\nKeywords: alps,summer\nCopyright 2020\n"
    ∧ push_metadata hike_metadata none
      = [simple_kelem "description"
          "Hike\nKeywords: alps,summer\nCopyright 2020\n"] :=
  ⟨rfl, rfl⟩

/-- Claim C7: for every metadata block and every feature, a description
element is present exactly when at least one contributing clause fires,
and the description is never an empty string — when no clause fires it is
absent rather than empty. -/
theorem description_presence (md : Metadata) (creator : Option String)
    (args : PlacemarkArgs) :
    (description_elements (push_metadata md creator)
      = if metadata_fired md creator
        then [simple_kelem "description" (metadata_description md creator)]
        else [])
    ∧ (metadata_description md creator = ""
        ↔ metadata_fired md creator = false)
    ∧ (∃ p, create_placemark args = .placemark p
        ∧ p.description
            = (if feature_fired args
               then some (feature_description args) else none)
        ∧ (feature_description args = "" ↔ feature_fired args = false)) := by
  refine ⟨?_, metadata_description_empty md creator, ?_⟩
  · unfold push_metadata
    simp only [description_elements]
    simp only [List.filter_append]
    have hname : (match md.name with
        | some n => [simple_kelem "name" n]
        | none => ([] : List Kml)).filter is_description = [] := by
      rcases md.name with _ | n <;> simp [simple_kelem, simple_element, is_description]
    have hauthor := description_elements_author md.author
    have hlinks := description_elements_links md.links
    simp only [description_elements] at hauthor hlinks
    rw [hname, hauthor, hlinks]
    by_cases h : metadata_description md creator = ""
    · have hf := (metadata_description_empty md creator).mp h
      simp [h, hf, simple_kelem, simple_element, is_description]
    · have hf : metadata_fired md creator = true := by
        cases hb : metadata_fired md creator
        · exact absurd ((metadata_description_empty md creator).mpr hb) h
        · rfl
      simp [h, hf, simple_kelem, simple_element, is_description]
  · refine ⟨_, rfl, ?_, feature_description_empty args⟩
    by_cases h : feature_description args = ""
    · have hf := (feature_description_empty args).mp h
      simp [create_placemark, h, hf]
    · have hf : feature_fired args = true := by
        cases hb : feature_fired args
        · exact absurd ((feature_description_empty args).mpr hb) h
        · rfl
      simp [create_placemark, h, hf]

/-- Claim C2 (counterexample): a source document whose metadata has no
timestamp but whose root carries a creator still gets a `Created` line —
`push_metadata` composes `Created by <creator>` from the creator alone. -/
theorem created_without_timestamp :
    default_metadata.time = none
    ∧ metadata_description default_metadata (some "gpx-writer")
        = "Created by gpx-writer\n"
    ∧ (metadata_description default_metadata
        (some "gpx-writer")).data.take 7 = "Created".data
    ∧ push_metadata default_metadata (some "gpx-writer")
        = [simple_kelem "description" "Created by gpx-writer\n"] :=
  ⟨rfl, rfl, by decide, rfl⟩

/-- Claim C2 (amended): the `Created` clause of the metadata description
is appended when the formatted timestamp or the creator is present (not
only when the timestamp is), rendering `Created`, then ` <formatted
time>` when the timestamp is present, then ` by <creator>` when a
creator is present; only documents with neither timestamp nor creator
have no `Created` line. -/
theorem created_line_rule (md : Metadata) (creator : Option String) :
    metadata_description md creator
      = desc_clause md.description
        ++ created_clause (md.time.bind GpxTime.format) creator
        ++ keywords_clause md.keywords
        ++ copyright_clause md.copyright
    ∧ (created_clause (md.time.bind GpxTime.format) creator = ""
        ↔ md.time.bind GpxTime.format = none ∧ creator = none)
    ∧ (∀ t c, created_clause (some t) (some c)
        = "Created " ++ t ++ " by " ++ c ++ "\n")
    ∧ (∀ t, created_clause (some t) none = "Created " ++ t ++ "\n")
    ∧ (∀ c, created_clause none (some c) = "Created by " ++ c ++ "\n")
    ∧ created_clause none none = "" := by
  refine ⟨metadata_description_clauses md creator,
    created_clause_empty _ creator, ?_, ?_, ?_, rfl⟩
  · intro t c
    simp [created_clause, String.append_assoc, created_append_space]
  · intro t
    simp [created_clause, String.append_assoc, created_append_space]
  · intro c
    simp [created_clause, String.append_assoc, created_append_by]

/-- Claim C3 (counterexample): the output root carries no attribute with
value `1` — its attributes are exactly the two namespace declarations;
the `1` marker is the content of the `open` child element of the
`Document`, not a root attribute. -/
theorem root_marker_attribute_absent :
    kml_attrs (convert_doc empty_gpx) = NAMESPACES
    ∧ ((kml_attrs (convert_doc empty_gpx)).map Prod.snd).contains "1" = false
    ∧ convert_doc empty_gpx
        = .kmlDocument .v22 NAMESPACES
            [.document (document_elements empty_gpx) []]
    ∧ (document_elements empty_gpx).head? = some (simple_kelem "open" "1") :=
  ⟨rfl, by decide, rfl, rfl⟩

/-- Claim C3 (amended): for every valid source document the serialized
output is the literal `XML_HEAD` line, then the serialized document, then
a trailing newline; the root declares the default KML 2.2 namespace and
the atom namespace; and the fixed marker is the `open` element with
content `1`, the first child of the `Document` (not a root attribute). -/
theorem output_framing (serialize : Kml → String) (gpx : Gpx) :
    convert_run serialize (some gpx) none = .ok (convert_output serialize gpx)
    ∧ (∃ rest, convert_output serialize gpx = XML_HEAD ++ "\n" ++ rest)
    ∧ (∃ pre, convert_output serialize gpx = pre ++ "\n")
    ∧ kml_attrs (convert_doc gpx) = NAMESPACES
    ∧ ("xmlns", "http://www.opengis.net/kml/2.2") ∈ kml_attrs (convert_doc gpx)
    ∧ ("xmlns:atom", "http://www.w3.org/2005/Atom")
        ∈ kml_attrs (convert_doc gpx)
    ∧ (document_elements gpx).head? = some (simple_kelem "open" DEFAULT_OPEN)
    ∧ DEFAULT_OPEN = "1" := by
  refine ⟨rfl, ⟨serialize (convert_doc gpx) ++ "\n", ?_⟩,
    ⟨XML_HEAD ++ "\n" ++ serialize (convert_doc gpx), rfl⟩,
    rfl, ?_, ?_, rfl, rfl⟩
  · simp [convert_output, String.append_assoc]
  · simp [kml_attrs, convert_doc, NAMESPACES]
  · simp [kml_attrs, convert_doc, NAMESPACES]

/-- Claim C4 (counterexample): a sink that fails on the very first write
(the `XML_HEAD` line, written with `.unwrap()`) makes `convert` panic; it
does not return a KML write error. -/
theorem first_write_failure_panics :
    (convert_run serialize0 (some empty_gpx) (some 0)).isKmlError = false
    ∧ convert_run serialize0 (some empty_gpx) (some 0) = .panicked "" :=
  ⟨rfl, rfl⟩

/-- Claim C4 (amended): malformed input yields the GPX parse error before
any output; a sink failure on the first write (the header line) causes a
panic via `unwrap()` rather than a returned write error; a sink failure
during the document serialization write is returned as the KML write
error after only the header has been written; and for a successfully
parsed document with a healthy sink the engine itself produces no error. -/
theorem error_phases (serialize : Kml → String) (gpx : Gpx)
    (failAt : Option Nat) :
    convert_run serialize none failAt = .gpxError
    ∧ convert_run serialize (some gpx) (some 0) = .panicked ""
    ∧ convert_run serialize (some gpx) (some 1) = .kmlError (XML_HEAD ++ "\n")
    ∧ convert_run serialize (some gpx) none
        = .ok (convert_output serialize gpx) :=
  ⟨rfl, rfl, rfl, rfl⟩

/-- Claim C10: for every metadata author record, an author element is
emitted iff the record yields at least one child; the name child is
present when the name or the email is non-empty — rendered as the name,
then a space and `<email>` when both are non-empty, just `<email>` when
only the email is present, just the name otherwise — and a link child is
present when the author has a link; an author with name, email and link
all absent produces no author element. -/
theorem author_element_shape (a : GpxAuthor) :
    author_kml (some a) = author_element_spec a
    ∧ (author_kml (some a) = []
        ↔ a.name.getD "" = "" ∧ a.email.getD "" = "" ∧ a.link = none) := by
  constructor
  · simp only [author_kml, author_children, author_element_spec]
    rw [author_name_rendered_eq_spec]
  · simp only [author_kml, author_children]
    rcases ha : a.link with _ | l <;>
      by_cases h : author_name_rendered a = "" <;>
        simp [ha, h, List.isEmpty]
    · exact (author_name_rendered_empty a).mp h
    · intro hx hy
      exact h ((author_name_rendered_empty a).mpr ⟨hx, hy⟩)

end GpxKml
